import Mathlib

/-!
Verification development for the `zhinst-qcodes` example repository.

The repository ships a single source file, the tutorial notebook
`examples/example1_getting_started.ipynb`.  The notebook imports the
`zhinst.qcodes` driver package, constructs an `HDAWG` device handle,
queries identification metadata, walks the device nodetree and reads and
writes the oscillator-frequency leaf parameter.  The driver package
itself is code of this repository that is not included under `src/`;
the definitions below marked `Modelled from the spec:` reconstruct the
driver behaviour from the specification's words and from the session
outputs recorded in the notebook.  The notebook's own code cells are
embedded as a small Python AST together with a sequential execution
semantics.
-/

namespace ZhinstQcodes

/-! ## Device handles (spec section 6, notebook cell In[2]) -/

/-- Modelled from the spec: a device handle of the `zhinst.qcodes` driver
(the driver package is not under `src/`).  Per the spec it is
"identified by a user-chosen name and a vendor serial number, holding a
transport interface selector and a host address" — exactly these four
fields and no others. -/
structure HDAWG where
  name : String
  serial : String
  interface : String
  host : String
  deriving Repr, DecidableEq

/-- Modelled from the spec: the `ziqc.HDAWG(name, serial, interface=…,
host=…)` constructor (not under `src/`).  The spec: "Construct a device
handle with: a user-chosen display name, a vendor serial number string,
an interface-type selector (default value representing a
Gigabit-Ethernet connection), and a data-server host address (default:
local host)."  Omitted keyword arguments are `none`. -/
def HDAWG.create (name serial : String) (interface host : Option String) : HDAWG :=
  { name := name
    serial := serial
    interface := interface.getD "1GbE"
    host := host.getD "localhost" }

/-- The device handle constructed by notebook cell In[2]:
`ziqc.HDAWG("hdawg1", "dev8138", interface="1gbe", host="10.42.0.226")`. -/
def hdawg : HDAWG := HDAWG.create "hdawg1" "dev8138" (some "1gbe") (some "10.42.0.226")

/-- Modelled from the spec: the firmware revision the data server reports
for a connected device (not under `src/`); pinned by the recorded session
output of cells In[2]/In[3], which report firmware `66245` for serial
`dev8138`. -/
def deviceFirmware (serial : String) : Int :=
  if serial = "dev8138" then 66245 else 0

/-- Upper-case every character of a string (the ASCII case mapping the
driver applies when echoing the serial and the interface). -/
def upperCase (s : String) : String :=
  String.mk (s.data.map Char.toUpper)

/-- Modelled from the spec: the banner line printed on connection (not
under `src/`); pinned by the recorded output of cell In[2]:
"Successfully connected to device DEV8138 on interface 1GBE" — the
serial and interface are echoed in upper case. -/
def connectBanner (d : HDAWG) : String :=
  "Successfully connected to device " ++ upperCase d.serial
    ++ " on interface " ++ upperCase d.interface

/-! ## Identification record (notebook cell In[3]) -/

/-- Modelled from the spec: the structured record returned by
`get_idn` (not under `src/`): "Query identification metadata (vendor,
model, serial, firmware version) as a structured record."  Exactly the
four fields recorded in the output of cell In[3]. -/
structure IdnRecord where
  vendor : String
  model : String
  serial : String
  firmware : Int
  deriving Repr, DecidableEq

/-- Modelled from the spec: `hdawg.get_idn()` (not under `src/`); pinned
by the recorded output of cell In[3]:
`{'vendor': 'Zurich Instruments', 'model': 'HDAWG', 'serial': 'dev8138',
'firmware': 66245}`.  The serial is the handle's own serial string,
verbatim. -/
def HDAWG.get_idn (d : HDAWG) : IdnRecord :=
  { vendor := "Zurich Instruments"
    model := "HDAWG"
    serial := d.serial
    firmware := deviceFirmware d.serial }

/-! ## Leaf parameters: call dispatch and device state (cells In[8], In[12]) -/

/-- Device state: the value held by each nodetree leaf, addressed by its
path below the device root (for example `["oscs", "0", "freq"]`). -/
def DevState := List String → ℚ

/-- The path of the oscillator-frequency leaf exercised by the notebook,
`oscs[0].freq`, node `/DEV8138/OSCS/0/FREQ` (cell In[8]). -/
def freqPath : List String := ["oscs", "0", "freq"]

/-- Modelled from the spec: the quantisation the device applies when the
oscillator-frequency leaf is written (device firmware behaviour, not
under `src/`).  The only recorded datum is the round trip of cell
In[12]: writing `100e6` and reading back `99999999.99999432`; the model
is pinned at that point and is the identity elsewhere (no other write
is recorded). -/
def oscFreqQuantize (v : ℚ) : ℚ :=
  if v = 10 ^ 8 then 9999999999999432 / 10 ^ 8 else v

/-- Modelled from the spec: the value a leaf actually stores when
written (not under `src/`).  Only the oscillator-frequency leaf has a
recorded non-trivial quantisation. -/
def leafQuantize (path : List String) (v : ℚ) : ℚ :=
  if path = freqPath then oscFreqQuantize v else v

/-- Modelled from the spec: invoking a leaf `Parameter` object (not
under `src/`).  The spec: "Read a leaf value by invoking it with no
arguments; write it by invoking it with a new value."  A call with no
argument returns the leaf's current value and leaves the device state
unchanged; a call with one argument returns nothing and updates the
device state, the leaf then holding the device-quantised version of the
argument. -/
def paramCall (path : List String) (arg : Option ℚ) (s : DevState) :
    Option ℚ × DevState :=
  match arg with
  | none => (some (s path), s)
  | some v => (none, fun p => if p = path then leafQuantize path v else s p)

/-- The device state at the start of cell In[12] of the recorded
session; every leaf is taken as holding `0` (the notebook does not read
any leaf before its first write). -/
def initState : DevState := fun _ => 0

/-! ## The nodetree (cells In[6] and In[8]) -/

/-- Modelled from the spec: the metadata a leaf `Parameter` carries (not
under `src/`): "leaves are individually readable/writable named values
with associated unit, type, and access-mode metadata".  The fields match
the description printed by cell In[8] for `oscs[0].freq`. -/
structure ParamMeta where
  pname : String
  unit : String
  ptype : String
  access : List String
  deriving Repr

/-- Modelled from the spec: a node of the device's hierarchical settings
tree (not under `src/`): "branches are grouped/enumerated collections
and leaves are individually readable/writable named values".  A `branch`
is a submodule grouping named children; a `chanList` is an enumerated
`ChannelList` of channels; a `leaf` is a `Parameter`. -/
inductive Node where
  | leaf (meta : ParamMeta)
  | branch (children : List (String × Node))
  | chanList (channels : List Node)

mutual

/-- All nodes reachable from a node, the node itself included. -/
def Node.allNodes : Node → List Node
  | .leaf m => [.leaf m]
  | .branch cs => .branch cs :: Node.allNodesOfChildren cs
  | .chanList ns => .chanList ns :: Node.allNodesOfList ns

/-- All nodes reachable from the named children of a branch. -/
def Node.allNodesOfChildren : List (String × Node) → List Node
  | [] => []
  | (_, n) :: rest => n.allNodes ++ Node.allNodesOfChildren rest

/-- All nodes reachable from the channels of a `ChannelList`. -/
def Node.allNodesOfList : List Node → List Node
  | [] => []
  | n :: rest => n.allNodes ++ Node.allNodesOfList rest

end

/-- A node has the shape the spec describes: it is a branch (submodule),
an enumerated `ChannelList`, or a leaf `Parameter` whose access-mode
metadata marks it readable or writable. -/
def Node.shapeOk : Node → Bool
  | .leaf m => m.access.contains "Read" || m.access.contains "Write"
  | .branch _ => true
  | .chanList _ => true

/-- The metadata of `oscs[n].freq`, as printed by cell In[8]:
node `/DEV8138/OSCS/0/FREQ`, properties Read, Write, Setting, type
Double, unit Hz. -/
def freqMeta : ParamMeta :=
  { pname := "freq", unit := "Hz", ptype := "Double"
    access := ["Read", "Write", "Setting"] }

/-- An oscillator channel: a group holding the single leaf `freq`. -/
def oscNode : Node := .branch [("freq", .leaf freqMeta)]

/-- Modelled from the spec: the `IDN` device parameter listed by cell
In[6]; a read-only string parameter. -/
def idnMeta : ParamMeta :=
  { pname := "IDN", unit := "", ptype := "String", access := ["Read"] }

/-- Modelled from the spec: the `clockbase` device parameter listed by
cell In[6]; a read-only frequency readout. -/
def clockbaseMeta : ParamMeta :=
  { pname := "clockbase", unit := "Hz", ptype := "Double", access := ["Read"] }

/-- Modelled from the spec: the HDAWG nodetree as the notebook shows it
(driver code not under `src/`).  Cell In[6] lists the submodules
`awgs, stats, oscs, status, sines, dios, system, sigouts, triggers,
features, cnts` and the parameters `IDN, clockbase`; the markdown tree
of the nodetree section shows the 16 oscillators with their `freq`
leaf, the 8 sine generators, the 4 AWG cores and the signal outputs
with `on`, `range`, `direct`, `offset` leaves.  Submodules whose
contents the notebook does not show are empty groups here. -/
def hdawgRoot : Node :=
  .branch
    [ ("awgs", .chanList (List.replicate 4 (.branch [])))
    , ("stats", .branch [])
    , ("oscs", .chanList (List.replicate 16 oscNode))
    , ("status", .branch [])
    , ("sines", .chanList (List.replicate 8 (.branch [])))
    , ("dios", .branch [])
    , ("system", .branch [])
    , ("sigouts", .chanList (List.replicate 8 (.branch
        [ ("on", .leaf { pname := "on", unit := "None", ptype := "Integer (enumerated)"
                         access := ["Read", "Write", "Setting"] })
        , ("range", .leaf { pname := "range", unit := "V", ptype := "Double"
                            access := ["Read", "Write", "Setting"] })
        , ("direct", .leaf { pname := "direct", unit := "None", ptype := "Integer (enumerated)"
                             access := ["Read", "Write", "Setting"] })
        , ("offset", .leaf { pname := "offset", unit := "V", ptype := "Double"
                             access := ["Read", "Write", "Setting"] }) ])))
    , ("triggers", .branch [])
    , ("features", .branch [])
    , ("cnts", .branch [])
    , ("IDN", .leaf idnMeta)
    , ("clockbase", .leaf clockbaseMeta) ]

/-! ## ChannelList slicing (cell In[7]) -/

/-- Modelled from the spec: a channel node as QCoDeS prints it in cell
In[7], `<ZINode: hdawg1_sines0 of HDAWG: hdawg1>`: a full name and the
name of the parent device handle it is bound to. -/
structure ZINode where
  zname : String
  parent : String
  deriving Repr, DecidableEq

/-- Modelled from the spec: a QCoDeS `ChannelList` (not under `src/`):
an enumerated collection of channel nodes bound to one parent device
handle. -/
structure ChannelList where
  parent : String
  channels : List ZINode
  deriving Repr, DecidableEq

/-- Modelled from the spec: slicing a `ChannelList` with a range
`[a:b]` (cell In[7], `hdawg.sines[0:2]`): the result is again a
`ChannelList` bound to the same parent, holding the channels at indexes
`a, a+1, …, b-1` in index order. -/
def ChannelList.slice (cl : ChannelList) (a b : Nat) : ChannelList :=
  { parent := cl.parent, channels := (cl.channels.drop a).take (b - a) }

/-- The `sines` ChannelList of the notebook's device handle: the eight
sine generators, named `hdawg1_sines0 … hdawg1_sines7` after the parent
handle `hdawg1`, as cell In[7] prints them. -/
def hdawgSines : ChannelList :=
  { parent := "hdawg1"
    channels := (List.range 8).map fun i =>
      { zname := "hdawg1_sines" ++ toString i, parent := "hdawg1" } }

/-! ## The notebook's own code, as a Python AST

The notebook `examples/example1_getting_started.ipynb` is the one
source file under `src/`.  Its six code cells are embedded below
statement by statement.  The expression and statement grammars carry
the Python constructs relevant to the claims — comprehensions, `await`,
and the compound (branching/looping/handling) statement forms — so that
their absence from the notebook is a statement about the source, not an
artefact of the embedding. -/

/-- A Python expression, covering the forms the notebook uses plus the
iteration and concurrency forms whose absence the claims assert. -/
inductive PyExpr where
  | pyname (s : String)
  | pystr (s : String)
  | pynum (q : ℚ)
  | pyattr (e : PyExpr) (field : String)
  | call (f : PyExpr) (args : List PyExpr) (kwargs : List (String × PyExpr))
  | index (e : PyExpr) (i : Int)
  | sliceRange (e : PyExpr) (a b : Int)
  | listComp (body : PyExpr) (var : String) (iter : PyExpr)
  | awaitE (e : PyExpr)

/-- A Python statement.  The notebook only ever uses the first three
simple forms; the compound forms (`if`, `while`, `for`, `try`/`except`,
`with`, `async def`) are carried so the claims about their absence are
meaningful.  Compound bodies are kept abstract as statement counts:
no compound statement occurs in the notebook, so no body is ever
needed. -/
inductive PyStmt where
  | impMod (module alias' : String)
  | assign (target : String) (e : PyExpr)
  | exprStmt (e : PyExpr)
  | ifStmt (cond : PyExpr) (thenCount elseCount : Nat)
  | whileStmt (cond : PyExpr) (bodyCount : Nat)
  | forStmt (var : String) (iter : PyExpr) (bodyCount : Nat)
  | tryStmt (bodyCount handlerCount : Nat)
  | withStmt (ctx : PyExpr) (bodyCount : Nat)
  | asyncDef (fname : String) (bodyCount : Nat)

mutual

/-- Does an expression contain an `await` — a suspension point of a
coroutine? -/
def PyExpr.hasAwait : PyExpr → Bool
  | .pyname _ => false
  | .pystr _ => false
  | .pynum _ => false
  | .pyattr e _ => e.hasAwait
  | .call f args kwargs =>
      f.hasAwait || PyExpr.anyAwait args || PyExpr.anyAwaitKw kwargs
  | .index e _ => e.hasAwait
  | .sliceRange e _ _ => e.hasAwait
  | .listComp body _ iter => body.hasAwait || iter.hasAwait
  | .awaitE _ => true

/-- Any expression of a positional-argument list contains an `await`. -/
def PyExpr.anyAwait : List PyExpr → Bool
  | [] => false
  | e :: rest => e.hasAwait || PyExpr.anyAwait rest

/-- Any expression of a keyword-argument list contains an `await`. -/
def PyExpr.anyAwaitKw : List (String × PyExpr) → Bool
  | [] => false
  | (_, e) :: rest => e.hasAwait || PyExpr.anyAwaitKw rest

end

mutual

/-- The comprehension subexpressions of an expression, in syntactic
order. -/
def PyExpr.comps : PyExpr → List PyExpr
  | .pyname _ => []
  | .pystr _ => []
  | .pynum _ => []
  | .pyattr e _ => e.comps
  | .call f args kwargs =>
      f.comps ++ PyExpr.compsOfList args ++ PyExpr.compsOfKwList kwargs
  | .index e _ => e.comps
  | .sliceRange e _ _ => e.comps
  | .listComp body var iter => [.listComp body var iter]
  | .awaitE e => e.comps

/-- The comprehension subexpressions of a positional-argument list. -/
def PyExpr.compsOfList : List PyExpr → List PyExpr
  | [] => []
  | e :: rest => e.comps ++ PyExpr.compsOfList rest

/-- The comprehension subexpressions of a keyword-argument list. -/
def PyExpr.compsOfKwList : List (String × PyExpr) → List PyExpr
  | [] => []
  | (_, e) :: rest => e.comps ++ PyExpr.compsOfKwList rest

end

/-- Is a statement one of Python's compound (control-flow) statement
forms — a branch, a loop, a handler, a context block or an async
definition? -/
def PyStmt.isCompound : PyStmt → Bool
  | .impMod _ _ => false
  | .assign _ _ => false
  | .exprStmt _ => false
  | .ifStmt _ _ _ => true
  | .whileStmt _ _ => true
  | .forStmt _ _ _ => true
  | .tryStmt _ _ => true
  | .withStmt _ _ => true
  | .asyncDef _ _ => true

/-- The expressions a simple statement evaluates (empty for imports and
for compound statements, which do not occur in the notebook). -/
def PyStmt.exprs : PyStmt → List PyExpr
  | .assign _ e => [e]
  | .exprStmt e => [e]
  | _ => []

/-- The comprehension subexpressions of a statement. -/
def PyStmt.comps (s : PyStmt) : List PyExpr :=
  PyExpr.compsOfList s.exprs

/-- Does a statement contain an `await` expression? -/
def PyStmt.hasAwait (s : PyStmt) : Bool :=
  PyExpr.anyAwait s.exprs

/-- A statement is free of every control-flow construct: it is not a
compound (branching, looping, handling or async) statement and its
expressions contain no comprehension — an expression-level loop — and
no `await`. -/
def PyStmt.controlFlowFree (s : PyStmt) : Bool :=
  !s.isCompound && s.comps.isEmpty && !s.hasAwait

/-- Is a statement a `try` statement — the construct that catches a
raised error? -/
def PyStmt.isTry : PyStmt → Bool
  | .tryStmt _ _ => true
  | _ => false

/-! ## The notebook's statements -/

/-- Cell In[2]:
`hdawg = ziqc.HDAWG("hdawg1", "dev8138", interface="1gbe", host="10.42.0.226")`. -/
def constructStmt : PyStmt :=
  .assign "hdawg"
    (.call (.pyattr (.pyname "ziqc") "HDAWG")
      [.pystr "hdawg1", .pystr "dev8138"]
      [("interface", .pystr "1gbe"), ("host", .pystr "10.42.0.226")])

/-- Cell In[3]: `hdawg.get_idn()`. -/
def idnStmt : PyStmt :=
  .exprStmt (.call (.pyattr (.pyname "hdawg") "get_idn") [] [])

/-- Cell In[6], first line:
`print([k for k in hdawg.submodules.keys()])`. -/
def submodulesKeysStmt : PyStmt :=
  .exprStmt (.call (.pyname "print")
    [.listComp (.pyname "k") "k"
      (.call (.pyattr (.pyattr (.pyname "hdawg") "submodules") "keys") [] [])] [])

/-- Cell In[6], second line:
`print([k for k in hdawg.parameters.keys()])`. -/
def parametersKeysStmt : PyStmt :=
  .exprStmt (.call (.pyname "print")
    [.listComp (.pyname "k") "k"
      (.call (.pyattr (.pyattr (.pyname "hdawg") "parameters") "keys") [] [])] [])

/-- Cell In[7]: `hdawg.sines[0:2]`. -/
def sliceStmt : PyStmt :=
  .exprStmt (.sliceRange (.pyattr (.pyname "hdawg") "sines") 0 2)

/-- Cell In[8]: `print(hdawg.oscs[0].freq.__doc__)`. -/
def docStmt : PyStmt :=
  .exprStmt (.call (.pyname "print")
    [.pyattr (.pyattr (.index (.pyattr (.pyname "hdawg") "oscs") 0) "freq") "__doc__"] [])

/-- Cell In[12], first call: `hdawg.nodetree.oscs[0].freq(100e6)`. -/
def setFreqStmt : PyStmt :=
  .exprStmt (.call
    (.pyattr (.index (.pyattr (.pyattr (.pyname "hdawg") "nodetree") "oscs") 0) "freq")
    [.pynum (10 ^ 8)] [])

/-- Cell In[12], second call: `hdawg.nodetree.oscs[0].freq()`. -/
def getFreqStmt : PyStmt :=
  .exprStmt (.call
    (.pyattr (.index (.pyattr (.pyattr (.pyname "hdawg") "nodetree") "oscs") 0) "freq")
    [] [])

/-- Every statement of the notebook's code cells, in execution order:
cell In[1] (the four imports), In[2], In[3], In[6], In[7], In[8] and
In[12]. -/
def notebookStmts : List PyStmt :=
  [ .impMod "numpy" "np"
  , .impMod "matplotlib.pyplot" "plt"
  , .impMod "qcodes" "qc"
  , .impMod "zhinst.qcodes" "ziqc"
  , constructStmt
  , idnStmt
  , submodulesKeysStmt
  , parametersKeysStmt
  , sliceStmt
  , docStmt
  , setFreqStmt
  , getFreqStmt ]

/-- The list of modules the notebook imports. -/
def notebookImports : List String :=
  ["numpy", "matplotlib.pyplot", "qcodes", "zhinst.qcodes"]

/-- Python's thread, task and lock modules; importing none of them is
part of the notebook doing nothing concurrent. -/
def concurrencyModules : List String :=
  ["threading", "_thread", "asyncio", "multiprocessing", "concurrent.futures", "queue"]

/-! ## Sequential execution of the notebook against the driver -/

/-- A request the notebook sends into the driver library: connect to the
device, query the identification record, or write/read the
oscillator-frequency leaf. -/
inductive Cmd where
  | connectCmd (name serial iface host : String)
  | idnQuery
  | setFreq (v : ℚ)
  | getFreq
  deriving Repr, DecidableEq

/-- An error raised inside the driver library. -/
inductive Err where
  | connectionFailed
  | deviceError (message : String)
  deriving Repr, DecidableEq

/-- One step of the notebook run: either purely local work (imports,
introspection of already-cached structure) or a call into the driver. -/
inductive Step where
  | pureStep
  | drvCall (c : Cmd)
  deriving Repr, DecidableEq

/-- The step a statement performs.  The constructor call, the
`get_idn()` call and the two leaf-parameter calls go to the driver —
the leaf call dispatching on its argument count, one argument meaning
write and none meaning read; imports and introspection printing are
local. -/
def stmtStep : PyStmt → Step
  | .assign _ (.call (.pyattr (.pyname "ziqc") "HDAWG")
      [.pystr n, .pystr s] [("interface", .pystr i), ("host", .pystr h)]) =>
      .drvCall (.connectCmd n s i h)
  | .exprStmt (.call (.pyattr (.pyname "hdawg") "get_idn") [] []) => .drvCall .idnQuery
  | .exprStmt (.call (.pyattr _ "freq") [.pynum v] []) => .drvCall (.setFreq v)
  | .exprStmt (.call (.pyattr _ "freq") [] []) => .drvCall .getFreq
  | _ => .pureStep

/-- Run a list of steps against a driver.  A driver call that raises an
error aborts the run with that error — there is no handler anywhere —
and every later step is skipped; otherwise the steps run one after the
other, strictly in order. -/
def runSteps (drv : Cmd → Except Err Unit) : List Step → Except Err Unit
  | [] => .ok ()
  | .pureStep :: rest => runSteps drv rest
  | .drvCall c :: rest =>
      match drv c with
      | .error e => .error e
      | .ok _ => runSteps drv rest

/-- Run the whole notebook against a driver. -/
def runNotebook (drv : Cmd → Except Err Unit) : Except Err Unit :=
  runSteps drv (notebookStmts.map stmtStep)

/-- Running a concatenation runs the first part, and the second only if
the first succeeded. -/
theorem runSteps_append (drv : Cmd → Except Err Unit) (l₁ l₂ : List Step) :
    runSteps drv (l₁ ++ l₂) =
      match runSteps drv l₁ with
      | .error e => .error e
      | .ok _ => runSteps drv l₂ := by
  induction l₁ with
  | nil => simp [runSteps]
  | cons s rest ih =>
      cases s with
      | pureStep => simpa [runSteps] using ih
      | drvCall c =>
          cases h : drv c with
          | error e => simp [runSteps, h]
          | ok _ => simpa [runSteps, h] using ih

/-! ## Theorems for the claims -/

/-- Claim C2: constructing a device handle takes exactly a user-chosen
display name, a vendor serial number string, an interface-type selector
and a data-server host address; an omitted interface selector defaults
to the value for a Gigabit-Ethernet (1GbE) connection and an omitted
host address defaults to localhost.  The third conjunct shows a handle
holds exactly those four fields and nothing else. -/
theorem hdawg_constructor_defaults :
    (∀ n s : String, HDAWG.create n s none none =
      { name := n, serial := s, interface := "1GbE", host := "localhost" }) ∧
    (∀ n s i h : String, HDAWG.create n s (some i) (some h) =
      { name := n, serial := s, interface := i, host := h }) ∧
    (∀ d : HDAWG, d = { name := d.name, serial := d.serial
                        interface := d.interface, host := d.host }) :=
  ⟨fun _ _ => rfl, fun _ _ _ _ => rfl, fun _ => rfl⟩

/-- Claim C3: for every connected device handle, `get_idn` returns a
structured record containing exactly the fields vendor, model, serial
and firmware version; on the notebook's handle it is the record the
output of cell In[3] shows. -/
theorem get_idn_structured_record :
    (∀ d : HDAWG, d.get_idn =
      { vendor := "Zurich Instruments", model := "HDAWG"
        serial := d.serial, firmware := deviceFirmware d.serial }) ∧
    (∀ r : IdnRecord, r = { vendor := r.vendor, model := r.model
                            serial := r.serial, firmware := r.firmware }) ∧
    hdawg.get_idn = { vendor := "Zurich Instruments", model := "HDAWG"
                      serial := "dev8138", firmware := 66245 } :=
  ⟨fun _ => rfl, fun _ => rfl, by decide⟩

/-- Claim C9: the serial field of the identification record equals,
character for character, the serial string passed to the constructor —
the lowercase "dev8138" for the notebook's handle — even though the
connection banner of cell In[2] reports the serial in uppercase
("DEV8138"). -/
theorem idn_serial_matches_constructor :
    (∀ d : HDAWG, d.get_idn.serial = d.serial) ∧
    hdawg.get_idn.serial = "dev8138" ∧
    connectBanner hdawg =
      "Successfully connected to device DEV8138 on interface 1GBE" :=
  ⟨fun _ => rfl, rfl, by decide⟩

/-- Claim C10: slicing the enumerated `sines` ChannelList with the
range `[0:2]` returns a ChannelList containing exactly the channel
nodes at indexes 0 and 1, in index order, each still bound to the same
parent device handle and named after it (`hdawg1_sines0`,
`hdawg1_sines1`); slicing never changes the parent binding. -/
theorem sines_slice_zero_two :
    hdawgSines.slice 0 2 =
      { parent := "hdawg1"
        channels := [ { zname := "hdawg1_sines0", parent := "hdawg1" }
                    , { zname := "hdawg1_sines1", parent := "hdawg1" } ] } ∧
    (hdawgSines.slice 0 2).channels = hdawgSines.channels.take 2 ∧
    ((hdawgSines.slice 0 2).channels.all fun c => c.parent == hdawgSines.parent) = true ∧
    (∀ (cl : ChannelList) (a b : Nat), (cl.slice a b).parent = cl.parent) :=
  ⟨by decide, by decide, by decide, fun _ _ _ => rfl⟩

/-- Claim C1, counterexample: invoking the oscillator-frequency leaf
with the one argument `100e6` does not leave the leaf holding that
argument — the recorded session (cell In[12]) shows the leaf holding
the device-quantised `99999999.99999432` instead, so "writes that
argument as the leaf's new value" fails as stated. -/
theorem param_write_not_verbatim :
    ((paramCall freqPath (some ((10 : ℚ) ^ 8)) initState).2) freqPath ≠ (10 : ℚ) ^ 8 := by
  simp only [paramCall, leafQuantize, oscFreqQuantize, if_pos rfl]
  norm_num

/-- Claim C1 (amended): invoking a leaf parameter with no arguments
returns the leaf's current value and changes nothing; invoking it with
exactly one argument writes that argument to the device, after which
the leaf holds the device-quantised version of the argument (the
argument itself whenever it lies on the device's grid) and every other
leaf is unchanged. -/
theorem param_call_dispatch (s : DevState) (path : List String) :
    (paramCall path none s).1 = some (s path) ∧
    (paramCall path none s).2 = s ∧
    ∀ v : ℚ,
      (paramCall path (some v) s).1 = none ∧
      ((paramCall path (some v) s).2) path = leafQuantize path v ∧
      ∀ q : List String, q ≠ path → ((paramCall path (some v) s).2) q = s q := by
  refine ⟨rfl, rfl, fun v => ⟨rfl, ?_, fun q hq => ?_⟩⟩
  · simp [paramCall]
  · simp [paramCall, hq]

/-- Witness for the amended claim C1, at the oscillator-frequency leaf:
writing `100e6` leaves the leaf holding its quantised value and leaves
the neighbouring oscillator's leaf untouched. -/
theorem param_call_dispatch_witness :
    ((paramCall freqPath (some ((10 : ℚ) ^ 8)) initState).2) freqPath
        = leafQuantize freqPath ((10 : ℚ) ^ 8) ∧
    ((paramCall freqPath (some ((10 : ℚ) ^ 8)) initState).2) ["oscs", "1", "freq"]
        = initState ["oscs", "1", "freq"] :=
  ⟨((param_call_dispatch initState freqPath).2.2 ((10 : ℚ) ^ 8)).2.1,
   ((param_call_dispatch initState freqPath).2.2 ((10 : ℚ) ^ 8)).2.2
     ["oscs", "1", "freq"] (by decide)⟩

/-- Claim C8: the write-then-read round trip on the
oscillator-frequency leaf is not the identity on the written value —
writing `100e6` and immediately reading back returns the
device-quantised `99999999.99999432`, a value different from the one
written, exactly as cell In[12] records. -/
theorem set_then_get_quantized :
    (paramCall freqPath none
        ((paramCall freqPath (some ((10 : ℚ) ^ 8)) initState).2)).1
      = some ((9999999999999432 : ℚ) / 10 ^ 8) ∧
    (9999999999999432 : ℚ) / 10 ^ 8 ≠ (10 : ℚ) ^ 8 := by
  constructor
  · simp [paramCall, leafQuantize, oscFreqQuantize]
  · norm_num

/-- Is a node the oscillator-frequency leaf, carrying exactly the
metadata cell In[8] prints: name `freq`, unit Hz, type Double,
properties Read, Write, Setting? -/
def Node.isFreqLeaf : Node → Bool
  | .leaf m =>
      m.pname == "freq" && m.unit == "Hz" && m.ptype == "Double"
        && m.access == ["Read", "Write", "Setting"]
  | _ => false

/-- Claim C4: every node reachable from the device handle's root is
either a branch — a grouped or enumerated collection of child nodes (a
submodule or a ChannelList) — or a leaf parameter whose access-mode
metadata marks it individually readable or writable; and the tree's 16
oscillators each carry the `freq` leaf with its unit, type and
access-mode metadata exactly as cell In[8] prints it. -/
theorem nodetree_shape :
    hdawgRoot.allNodes.all Node.shapeOk = true ∧
    hdawgRoot.allNodes.countP Node.isFreqLeaf = 16 := by
  constructor
  · decide
  · decide

/-- Claim C5, counterexample: the notebook is not entirely free of
looping constructs — the first statement of cell In[6],
`print([k for k in hdawg.submodules.keys()])`, contains a list
comprehension, an expression-level loop, so "no branching, looping, or
other control flow" fails as stated. -/
theorem notebook_not_loop_free :
    notebookStmts.all PyStmt.controlFlowFree = false ∧
    PyStmt.controlFlowFree submodulesKeysStmt = false := by
  constructor
  · decide
  · decide

/-- Claim C5 (amended): the notebook's statement-level control flow is
a single straight-line sequence — import the driver library, construct
a device handle, print introspection and metadata output, then write
and read one parameter — with no branching, looping or other compound
statement and no `await`; the only iteration constructs are the two
list comprehensions of cell In[6], each merely enumerating the keys of
an introspection dictionary, and no other algorithmic logic is computed
in the notebook itself. -/
theorem notebook_straight_line :
    notebookStmts.all (fun s => !s.isCompound && !s.hasAwait) = true ∧
    (notebookStmts.map PyStmt.comps).flatten =
      [ .listComp (.pyname "k") "k"
          (.call (.pyattr (.pyattr (.pyname "hdawg") "submodules") "keys") [] [])
      , .listComp (.pyname "k") "k"
          (.call (.pyattr (.pyattr (.pyname "hdawg") "parameters") "keys") [] []) ] ∧
    notebookStmts.map stmtStep =
      [ .pureStep, .pureStep, .pureStep, .pureStep
      , .drvCall (.connectCmd "hdawg1" "dev8138" "1gbe" "10.42.0.226")
      , .drvCall .idnQuery
      , .pureStep, .pureStep, .pureStep, .pureStep
      , .drvCall (.setFreq ((10 : ℚ) ^ 8))
      , .drvCall .getFreq ] :=
  ⟨rfl, rfl, rfl⟩

/-- Claim C6: no operation performed in the notebook catches, retries
or otherwise handles a failure.  The notebook contains no `try`
statement, and whenever the notebook's statements split as some prefix,
one driver-calling statement and a suffix, with the prefix running
cleanly and the driver raising an error on that statement's call, the
whole notebook run ends with exactly that error — the error propagates
unhandled and no recovery step runs. -/
theorem notebook_error_propagation (drv : Cmd → Except Err Unit)
    (pre post : List PyStmt) (s : PyStmt) (c : Cmd) (e : Err)
    (hsplit : notebookStmts = pre ++ s :: post)
    (hstep : stmtStep s = .drvCall c)
    (hpre : runSteps drv (pre.map stmtStep) = .ok ())
    (herr : drv c = .error e) :
    runNotebook drv = .error e ∧
    notebookStmts.all (fun t => !t.isTry) = true := by
  constructor
  · unfold runNotebook
    rw [hsplit, List.map_append, runSteps_append, hpre, List.map_cons, hstep]
    simp [runSteps, herr]
  · decide

/-- A driver whose every call fails with a connection error. -/
def failDrv : Cmd → Except Err Unit := fun _ => .error .connectionFailed

/-- Witness for claim C6: against a driver whose connection attempt
fails, the notebook run — whose first four statements are the imports,
followed by the constructor call of cell In[2] — ends with exactly that
connection error. -/
theorem notebook_error_propagation_witness :
    runNotebook failDrv = .error .connectionFailed :=
  (notebook_error_propagation failDrv
    [ .impMod "numpy" "np", .impMod "matplotlib.pyplot" "plt"
    , .impMod "qcodes" "qc", .impMod "zhinst.qcodes" "ziqc" ]
    [ idnStmt, submodulesKeysStmt, parametersKeysStmt, sliceStmt
    , docStmt, setFreqStmt, getFreqStmt ]
    constructStmt (.connectCmd "hdawg1" "dev8138" "1gbe" "10.42.0.226")
    .connectionFailed rfl rfl rfl rfl).1

/-- Claim C7: the notebook never performs a concurrent operation —
every statement is a plain sequential simple statement (no async
definition, no `await`, no compound statement that could hold a lock),
none of the imported modules is a thread, task, lock or queue module,
and the execution semantics runs the steps strictly one after the
other, a later segment running only once the earlier one has
succeeded. -/
theorem notebook_sequential :
    notebookStmts.all (fun s => !s.isCompound && !s.hasAwait) = true ∧
    (notebookImports.all fun m => !(concurrencyModules.contains m)) = true ∧
    (notebookStmts.filterMap fun s =>
      match s with
      | .impMod m _ => some m
      | _ => none) = notebookImports ∧
    ∀ (drv : Cmd → Except Err Unit) (l₁ l₂ : List Step),
      runSteps drv (l₁ ++ l₂) =
        match runSteps drv l₁ with
        | .error e => .error e
        | .ok _ => runSteps drv l₂ :=
  ⟨rfl, by decide, rfl, fun drv l₁ l₂ => runSteps_append drv l₁ l₂⟩

end ZhinstQcodes
